import Mathlib

/-
Verification of the MAVLink JSON-logging tap
(src/mavproxy_logger/mavlink_proxy_with_json.py).

The development shallowly embeds the Python code: Python values that can
occur in a decoded MAVLink message dictionary become the inductive type
`PyObj`; the recursive normalizer `make_json_serializable`, the record
builder and writer `log_mavlink_message`, the logger thread's receive
loop, `setup_json_logging` / `start_json_logger`, and `stop` become Lean
functions over explicit state.  Wall-clock timestamps, receive outcomes
and write outcomes are injected as parameters, so all functions are pure
and executable.
-/

namespace MavlinkProxy

mutual
/-- PyObj models a Python value as it can appear in `msg.to_dict()` and in
the JSON entry built by `log_mavlink_message`:
`None`, `bool`, `int`, `float`, `str`, `bytes`, `bytearray`, `list`,
`tuple`, `dict` (string keys, insertion order), plus `pyOther` standing
for any other Python object (identified by an opaque tag).  A Python
`float` is likewise carried as an opaque identifier of the float value:
the code never computes with floats, it only passes them through to
`json.dumps`, so only the identity of the value matters here.
Lists of children use the companion types `PyObjs` / `PyFields` so that
all recursion over the tree is structural. -/
inductive PyObj where
  | pyNone
  | pyBool (b : Bool)
  | pyInt (i : Int)
  | pyFloat (fid : Nat)
  | pyStr (s : String)
  | pyBytes (bs : List Nat)
  | pyByteArray (bs : List Nat)
  | pyList (xs : PyObjs)
  | pyTuple (xs : PyObjs)
  | pyDict (kvs : PyFields)
  | pyOther (tag : Nat)
deriving DecidableEq

inductive PyObjs where
  | nil
  | cons (x : PyObj) (xs : PyObjs)
deriving DecidableEq

inductive PyFields where
  | nil
  | cons (k : String) (v : PyObj) (rest : PyFields)
deriving DecidableEq
end

/-- Unicode replacement character U+FFFD, produced by
`bytes.decode('utf-8', errors='replace')` for invalid sequences. -/
def replacementChar : Char := Char.ofNat 0xFFFD

/-- whether a byte is a UTF-8 continuation byte (0x80..0xBF). -/
def isCont (b : Nat) : Bool := 0x80 ≤ b && b < 0xC0

/-- range check for the first continuation byte of a 3-byte sequence
(the lead-dependent restriction that excludes overlong forms and
surrogate code points). -/
def cont3Ok (lead b1 : Nat) : Bool :=
  if lead = 0xE0 then 0xA0 ≤ b1 && b1 < 0xC0
  else if lead = 0xED then 0x80 ≤ b1 && b1 < 0xA0
  else isCont b1

/-- range check for the first continuation byte of a 4-byte sequence. -/
def cont4Ok (lead b1 : Nat) : Bool :=
  if lead = 0xF0 then 0x90 ≤ b1 && b1 < 0xC0
  else if lead = 0xF4 then 0x80 ≤ b1 && b1 < 0x90
  else isCont b1

/-- utf8Step decodes one UTF-8 sequence starting at lead byte `b` with the
following bytes in `rest`.  Returns the decoded character (or U+FFFD on an
invalid sequence) and the number of extra bytes consumed after `b`. -/
def utf8Step (b : Nat) (rest : List Nat) : Char × Nat :=
  if b < 0x80 then (Char.ofNat b, 0)
  else if 0xC2 ≤ b && b ≤ 0xDF then
    match rest with
    | b1 :: _ =>
      if isCont b1 then (Char.ofNat ((b - 0xC0) * 0x40 + (b1 - 0x80)), 1)
      else (replacementChar, 0)
    | [] => (replacementChar, 0)
  else if 0xE0 ≤ b && b ≤ 0xEF then
    match rest with
    | b1 :: b2 :: _ =>
      if cont3Ok b b1 && isCont b2 then
        (Char.ofNat ((b - 0xE0) * 0x1000 + (b1 - 0x80) * 0x40 + (b2 - 0x80)), 2)
      else (replacementChar, 0)
    | _ => (replacementChar, 0)
  else if 0xF0 ≤ b && b ≤ 0xF4 then
    match rest with
    | b1 :: b2 :: b3 :: _ =>
      if cont4Ok b b1 && isCont b2 && isCont b3 then
        (Char.ofNat ((b - 0xF0) * 0x40000 + (b1 - 0x80) * 0x1000 +
                     (b2 - 0x80) * 0x40 + (b3 - 0x80)), 3)
      else (replacementChar, 0)
    | _ => (replacementChar, 0)
  else (replacementChar, 0)

/-- fuel-indexed worker for the UTF-8 decoder; the fuel is an upper bound
on the number of sequences left, so recursion is structural and the
function evaluates inside the kernel. -/
def utf8DecodeAux : Nat → List Nat → List Char
  | _, [] => []
  | 0, _ :: _ => []
  | fuel + 1, b :: rest =>
    let s := utf8Step b rest
    s.1 :: utf8DecodeAux fuel (rest.drop s.2)

/-- utf8DecodeReplace models Python's `bytes.decode('utf-8',
errors='replace')` (as invoked by `make_json_serializable`): standard
UTF-8 decoding where each invalid sequence yields the replacement
character U+FFFD and decoding continues. -/
def utf8DecodeReplace (bs : List Nat) : String :=
  String.mk (utf8DecodeAux bs.length bs)

mutual
/-- make_json_serializable, transcribed from
`MAVProxyWithJSON.make_json_serializable` (lines 75-88): `bytearray` and
`bytes` are decoded as UTF-8 with replacement; `dict` values, `list` and
`tuple` elements are converted recursively (a `tuple` becomes a `list`,
dict keys are kept untouched); every other value is returned unchanged. -/
def make_json_serializable : PyObj → PyObj
  | .pyByteArray bs => .pyStr (utf8DecodeReplace bs)
  | .pyBytes bs => .pyStr (utf8DecodeReplace bs)
  | .pyDict kvs => .pyDict (mjsFields kvs)
  | .pyList xs => .pyList (mjsList xs)
  | .pyTuple xs => .pyList (mjsList xs)
  | o => o

def mjsList : PyObjs → PyObjs
  | .nil => .nil
  | .cons x xs => .cons (make_json_serializable x) (mjsList xs)

def mjsFields : PyFields → PyFields
  | .nil => .nil
  | .cons k v rest => .cons k (make_json_serializable v) (mjsFields rest)
end

mutual
/-- noOther holds when no `pyOther` value (an object outside the types the
code's isinstance chain and `json.dumps` know about) occurs anywhere in
the tree; this is exactly the domain of a DecodedMessage payload as the
spec describes it (ints, floats, strings, binary blobs, nested
sequences/mappings). -/
def noOther : PyObj → Bool
  | .pyOther _ => false
  | .pyDict kvs => noOtherFields kvs
  | .pyList xs => noOtherList xs
  | .pyTuple xs => noOtherList xs
  | _ => true

def noOtherList : PyObjs → Bool
  | .nil => true
  | .cons x xs => noOther x && noOtherList xs

def noOtherFields : PyFields → Bool
  | .nil => true
  | .cons _ v rest => noOther v && noOtherFields rest
end

mutual
/-- jsonSafeB holds when every node of the tree is one of the JSON value
forms null / bool / number (int or float) / string / array (list) /
object (dict): no bytes, no bytearray, no tuple, no foreign object. -/
def jsonSafeB : PyObj → Bool
  | .pyBytes _ => false
  | .pyByteArray _ => false
  | .pyTuple _ => false
  | .pyOther _ => false
  | .pyDict kvs => jsonSafeFields kvs
  | .pyList xs => jsonSafeList xs
  | _ => true

def jsonSafeList : PyObjs → Bool
  | .nil => true
  | .cons x xs => jsonSafeB x && jsonSafeList xs

def jsonSafeFields : PyFields → Bool
  | .nil => true
  | .cons _ v rest => jsonSafeB v && jsonSafeFields rest
end

mutual
/-- Shape of a Python tree: leaves erased to `leaf`, sequences (lists and
tuples alike) to `seq` over the children's shapes, mappings to `map`
keeping the keys in order. -/
inductive Shape where
  | leaf
  | seq (ss : Shapes)
  | map (fs : FieldShapes)
deriving DecidableEq

inductive Shapes where
  | nil
  | cons (s : Shape) (ss : Shapes)
deriving DecidableEq

inductive FieldShapes where
  | nil
  | cons (k : String) (s : Shape) (rest : FieldShapes)
deriving DecidableEq
end

mutual
def shape : PyObj → Shape
  | .pyDict kvs => .map (shapeFields kvs)
  | .pyList xs => .seq (shapeList xs)
  | .pyTuple xs => .seq (shapeList xs)
  | _ => .leaf

def shapeList : PyObjs → Shapes
  | .nil => .nil
  | .cons x xs => .cons (shape x) (shapeList xs)

def shapeFields : PyFields → FieldShapes
  | .nil => .nil
  | .cons k v rest => .cons k (shape v) (shapeFields rest)
end

mutual
/-- leafCount counts the non-container nodes of a tree. -/
def leafCount : PyObj → Nat
  | .pyDict kvs => leafCountFields kvs
  | .pyList xs => leafCountList xs
  | .pyTuple xs => leafCountList xs
  | _ => 1

def leafCountList : PyObjs → Nat
  | .nil => 0
  | .cons x xs => leafCount x + leafCountList xs

def leafCountFields : PyFields → Nat
  | .nil => 0
  | .cons _ v rest => leafCount v + leafCountFields rest
end

/-! Model of `json.dumps` with its default options (`ensure_ascii=True`,
separators `", "` and `": "`), as called on line 116 of the source.  It
returns `none` exactly when `json.dumps` raises `TypeError`: on `bytes`,
`bytearray` and foreign objects.  The exact digits a Python `float` repr
produces are irrelevant to every property below, so a float value is
rendered from its opaque identifier. -/

/-- opening brace character. -/
def lbrace : Char := Char.ofNat 123

/-- closing brace character. -/
def rbrace : Char := Char.ofNat 125

/-- lower-case hexadecimal digit, as used in `\uXXXX` escapes. -/
def hexDigit (n : Nat) : Char :=
  Char.ofNat (if n < 10 then 48 + n else 87 + n)

/-- four-digit hexadecimal rendering of `n % 0x10000`. -/
def hex4 (n : Nat) : List Char :=
  [hexDigit (n / 4096 % 16), hexDigit (n / 256 % 16),
   hexDigit (n / 16 % 16), hexDigit (n % 16)]

/-- escChar renders one character of a JSON string literal the way
`json.dumps` does with `ensure_ascii=True`: the two-character escapes for
quote, backslash and common control characters, `\uXXXX` for the other
control characters and all non-ASCII characters, surrogate pairs beyond
the BMP, and the character itself for printable ASCII. -/
def escChar (c : Char) : List Char :=
  if c = '"' then ['\\', '"']
  else if c = '\\' then ['\\', '\\']
  else if c = '\n' then ['\\', 'n']
  else if c = '\t' then ['\\', 't']
  else if c = '\r' then ['\\', 'r']
  else if c.toNat = 8 then ['\\', 'b']
  else if c.toNat = 12 then ['\\', 'f']
  else if c.toNat < 0x20 then '\\' :: 'u' :: hex4 c.toNat
  else if c.toNat < 0x7f then [c]
  else if c.toNat < 0x10000 then '\\' :: 'u' :: hex4 c.toNat
  else
    '\\' :: 'u' :: hex4 (0xD800 + (c.toNat - 0x10000) / 0x400) ++
    '\\' :: 'u' :: hex4 (0xDC00 + (c.toNat - 0x10000) % 0x400)

/-- escChars escapes every character of a string body. -/
def escChars : List Char → List Char
  | [] => []
  | c :: cs => escChar c ++ escChars cs

/-- strLit renders a JSON string literal: quote, escaped body, quote. -/
def strLit (s : String) : List Char := '"' :: escChars s.data ++ ['"']

/-- decimal digit character for `n % 10`. -/
def digitChar (n : Nat) : Char := Char.ofNat (48 + n % 10)

/-- fuel-indexed decimal rendering of a natural number (most significant
digit first, accumulated in `acc`); fuel `n + 1` always suffices. -/
def natCharsCore : Nat → Nat → List Char → List Char
  | 0, _, acc => acc
  | fuel + 1, n, acc =>
    if n < 10 then digitChar n :: acc
    else natCharsCore fuel (n / 10) (digitChar (n % 10) :: acc)

/-- decimal rendering of a natural number. -/
def natChars (n : Nat) : List Char := natCharsCore (n + 1) n []

/-- decimal rendering of an integer, with a leading minus sign when
negative. -/
def intChars (i : Int) : List Char :=
  if i < 0 then '-' :: natChars i.natAbs else natChars i.natAbs

mutual
/-- serializeJson models `json.dumps` (default options) on a Python value:
`some` of the rendered characters, or `none` when `json.dumps` raises
`TypeError` because a value of an unsupported type (bytes, bytearray, or
a foreign object) occurs somewhere in the tree.  Tuples are serialized as
JSON arrays, exactly as `json.dumps` does. -/
def serializeJson : PyObj → Option (List Char)
  | .pyNone => some ['n', 'u', 'l', 'l']
  | .pyBool b =>
    some (if b then ['t', 'r', 'u', 'e'] else ['f', 'a', 'l', 's', 'e'])
  | .pyInt i => some (intChars i)
  | .pyFloat fid => some (natChars fid)
  | .pyStr s => some (strLit s)
  | .pyBytes _ => none
  | .pyByteArray _ => none
  | .pyOther _ => none
  | .pyList xs => (serializeItems xs).map fun body => '[' :: body ++ [']']
  | .pyTuple xs => (serializeItems xs).map fun body => '[' :: body ++ [']']
  | .pyDict kvs =>
    (serializeEntries kvs).map fun body => lbrace :: body ++ [rbrace]

/-- serializeItems renders the comma-separated element list of a JSON
array. -/
def serializeItems : PyObjs → Option (List Char)
  | .nil => some []
  | .cons x .nil => serializeJson x
  | .cons x xs => do
    let d ← serializeJson x
    let rest ← serializeItems xs
    some (d ++ ',' :: ' ' :: rest)

/-- serializeEntries renders the comma-separated `"key": value` list of a
JSON object. -/
def serializeEntries : PyFields → Option (List Char)
  | .nil => some []
  | .cons k v .nil => do
    let d ← serializeJson v
    some (strLit k ++ ':' :: ' ' :: d)
  | .cons k v rest => do
    let d ← serializeJson v
    let rs ← serializeEntries rest
    some (strLit k ++ ':' :: ' ' :: d ++ ',' :: ' ' :: rs)
end

/-! Model of the logging state and operations of `MAVProxyWithJSON`.
Wall-clock readings (`datetime.now`), receive outcomes of
`master.recv_match` and the success or failure of the file write are
external inputs of the Python code and are injected as parameters. -/

/-- Msg models a decoded pymavlink message as `log_mavlink_message`
observes it: the accessor results `get_type()`, `get_msgId()`,
`get_srcSystem()`, `get_srcComponent()`, `get_seq()` and the payload
dictionary `to_dict()`. -/
structure Msg where
  msg_type : String
  msg_id : Int
  src_system : Int
  src_component : Int
  seq : Int
  payload : PyObj
deriving DecidableEq

/-- json_entry builds the dictionary assembled on lines 104-113 of
`log_mavlink_message`, with the fields in the code's insertion order and
the payload normalized by `make_json_serializable`. -/
def json_entry (ts : String) (m : Msg) (direction : String) : PyObj :=
  .pyDict
    (.cons "timestamp" (.pyStr ts)
      (.cons "system_id" (.pyInt m.src_system)
        (.cons "component_id" (.pyInt m.src_component)
          (.cons "msg_id" (.pyInt m.msg_id)
            (.cons "msg_name" (.pyStr m.msg_type)
              (.cons "seq" (.pyInt m.seq)
                (.cons "direction" (.pyStr direction)
                  (.cons "payload" (make_json_serializable m.payload)
                    .nil))))))))

/-- FileState models the open log file: characters already pushed out by
`flush()`, and characters still sitting in the userspace buffer. -/
structure FileState where
  flushed : List Char
  pending : List Char
deriving DecidableEq

/-- fwrite models `file.write(s)`: the text goes into the buffer. -/
def fwrite (f : FileState) (s : List Char) : FileState :=
  { f with pending := f.pending ++ s }

/-- fflush models `file.flush()`: the buffer is pushed out. -/
def fflush (f : FileState) : FileState :=
  { flushed := f.flushed ++ f.pending, pending := [] }

/-- Event is an observable side effect on the operator-visible channel
(`print`) or on the MAVProxy child process. -/
inductive Event where
  | jsonLoggingError
  | jsonLoggerError
  | jsonLoggingStopped
  | mavproxyStopped
  | sigterm
  | connectionFailed
  | loggerConnected
deriving DecidableEq

/-- WriteOutcome tells whether the `write`/`flush` pair on the log file
succeeds or raises `IOError`; this is an environment input. -/
inductive WriteOutcome where
  | ok
  | ioerr
deriving DecidableEq

/-- LoggerState is the mutable state `log_mavlink_message` touches:
`self.json_logging_enabled` and `self.json_log_file` (`none` when no
file is open). -/
structure LoggerState where
  json_logging_enabled : Bool
  json_log_file : Option FileState
deriving DecidableEq

/-- log_mavlink_message, transcribed from lines 90-120: return silently
when no file is open or logging is disabled; otherwise build the JSON
entry, serialize it, write it with a trailing newline and flush.  Any
exception inside the `try` block — `json.dumps` raising `TypeError`, or
the write/flush raising `IOError` — is caught and only reported
(`"✗ JSON logging error"`), leaving the file as it was. -/
def log_mavlink_message (st : LoggerState) (ts : String) (m : Msg)
    (direction : String) (wr : WriteOutcome) : LoggerState × List Event :=
  match st.json_log_file, st.json_logging_enabled with
  | none, _ => (st, [])
  | some _, false => (st, [])
  | some f, true =>
    match serializeJson (json_entry ts m direction) with
    | none => (st, [.jsonLoggingError])
    | some doc =>
      match wr with
      | .ok =>
        ({ st with json_log_file := some (fflush (fwrite f (doc ++ ['\n']))) },
         [])
      | .ioerr => (st, [.jsonLoggingError])

/-- RecvOutcome is one result of `master.recv_match(blocking=True,
timeout=1.0)` in the logger thread: a message (tagged with the wall-clock
reading `log_mavlink_message` will take and the outcome of the file
write), a timeout (`None`), or an exception raised by the receive — a
socket-level failure.  A frame that fails to decode is not an exception:
mavutil's default robust parsing delivers it as an ordinary message of
type `BAD_DATA` (see `badDataMsg`). -/
inductive RecvOutcome where
  | msg (ts : String) (m : Msg) (wr : WriteOutcome)
  | timeout
  | recvError
deriving DecidableEq

/-- json_logger_loop, transcribed from the `while` loop of
`json_logger_thread` (lines 136-150), run over a finite trace of receive
outcomes: on a message, log it with direction `"RX"` and keep going; on
`None`, loop; on an exception, print `"✗ JSON logger error"` and `break`
out of the loop, ignoring the remainder of the trace. -/
def json_logger_loop : LoggerState → List RecvOutcome → LoggerState × List Event
  | st, [] => (st, [])
  | st, o :: rest =>
    if st.json_logging_enabled then
      match o with
      | .timeout => json_logger_loop st rest
      | .msg ts m wr =>
        let r := log_mavlink_message st ts m "RX" wr
        let r2 := json_logger_loop r.1 rest
        (r2.1, r.2 ++ r2.2)
      | .recvError => (st, [.jsonLoggerError])
    else (st, [])

/-- StartOutcome is the observable result of `start_json_logger`: its
return value, whether the `.jsonl` log file now exists on disk, and what
the logger thread reports about its connection attempt. -/
structure StartOutcome where
  ret : Bool
  fileCreated : Bool
  events : List Event
deriving DecidableEq

/-- setup_json_logging, transcribed from lines 62-73: `open(path, 'w')`
either creates the file and succeeds (return `True`) or raises before any
file exists (return `False`).  The pair returned is (return value, file
created on disk); `openOk` is the environment's verdict on the `open`. -/
def setup_json_logging (openOk : Bool) : Bool × Bool := (openOk, openOk)

/-- start_json_logger, transcribed from lines 122-159: it first runs
`setup_json_logging` — creating the log file — and returns `False` if
that fails; otherwise it starts the logger thread and returns `True`
immediately.  The thread then calls `mavutil.mavlink_connection`; if that
raises, the thread only prints `"✗ JSON logger connection failed"`.
`connectOk` is the environment's verdict on the connection attempt. -/
def start_json_logger (openOk connectOk : Bool) : StartOutcome :=
  if (setup_json_logging openOk).1 then
    { ret := true
      fileCreated := (setup_json_logging openOk).2
      events := if connectOk then [.loggerConnected] else [.connectionFailed] }
  else
    { ret := false, fileCreated := (setup_json_logging openOk).2, events := [] }

/-- CtrlState is the controller state `stop` touches:
`self.json_logging_enabled`, `self.json_log_file` (`some b` with `b`
recording whether the handle is still open — a closed Python file object
is still truthy), and `self.mavproxy_process` (`some r` with `r`
recording whether the child is still running — the attribute is never
reset to `None`). -/
structure CtrlState where
  json_logging_enabled : Bool
  json_log_file : Option Bool
  mavproxy_process : Option Bool
deriving DecidableEq

/-- stop, transcribed from lines 249-274: if logging is enabled, disable
it and, when a file object exists, close it and print `"✓ JSON logging
stopped"`; then, whenever `self.mavproxy_process` is set (it is never
cleared), signal the child — `Popen.terminate` only delivers SIGTERM if
the child has not exited yet — wait for it and print `"✓ MAVProxy
stopped"`. -/
def stop (s : CtrlState) : CtrlState × List Event :=
  let step1 :=
    if s.json_logging_enabled then
      match s.json_log_file with
      | some _ =>
        ({ s with json_logging_enabled := false, json_log_file := some false },
         [Event.jsonLoggingStopped])
      | none => ({ s with json_logging_enabled := false }, ([] : List Event))
    else (s, [])
  let step2 :=
    match step1.1.mavproxy_process with
    | some r =>
      ({ step1.1 with mavproxy_process := some false },
       (if r then [Event.sigterm] else []) ++ [Event.mavproxyStopped])
    | none => (step1.1, [])
  (step2.1, step1.2 ++ step2.2)

/-- jdoc is the serialized JSON document of one received frame (timestamp
paired with message), as `log_mavlink_message` writes it. -/
def jdoc (p : String × Msg) : List Char :=
  (serializeJson (json_entry p.1 p.2 "RX")).getD []

/-! Helper lemmas. -/

mutual
theorem shape_mjs : ∀ o, shape (make_json_serializable o) = shape o
  | .pyNone => rfl
  | .pyBool _ => rfl
  | .pyInt _ => rfl
  | .pyFloat _ => rfl
  | .pyStr _ => rfl
  | .pyBytes _ => rfl
  | .pyByteArray _ => rfl
  | .pyOther _ => rfl
  | .pyList xs => by
    simp [make_json_serializable, shape, shapeList_mjsList xs]
  | .pyTuple xs => by
    simp [make_json_serializable, shape, shapeList_mjsList xs]
  | .pyDict kvs => by
    simp [make_json_serializable, shape, shapeFields_mjsFields kvs]

theorem shapeList_mjsList : ∀ xs, shapeList (mjsList xs) = shapeList xs
  | .nil => rfl
  | .cons x xs => by
    simp [mjsList, shapeList, shape_mjs x, shapeList_mjsList xs]

theorem shapeFields_mjsFields : ∀ kvs, shapeFields (mjsFields kvs) = shapeFields kvs
  | .nil => rfl
  | .cons k v rest => by
    simp [mjsFields, shapeFields, shape_mjs v, shapeFields_mjsFields rest]
end

mutual
theorem leafCount_mjs : ∀ o, leafCount (make_json_serializable o) = leafCount o
  | .pyNone => rfl
  | .pyBool _ => rfl
  | .pyInt _ => rfl
  | .pyFloat _ => rfl
  | .pyStr _ => rfl
  | .pyBytes _ => rfl
  | .pyByteArray _ => rfl
  | .pyOther _ => rfl
  | .pyList xs => by
    simp [make_json_serializable, leafCount, leafCountList_mjsList xs]
  | .pyTuple xs => by
    simp [make_json_serializable, leafCount, leafCountList_mjsList xs]
  | .pyDict kvs => by
    simp [make_json_serializable, leafCount, leafCountFields_mjsFields kvs]

theorem leafCountList_mjsList : ∀ xs, leafCountList (mjsList xs) = leafCountList xs
  | .nil => rfl
  | .cons x xs => by
    simp [mjsList, leafCountList, leafCount_mjs x, leafCountList_mjsList xs]

theorem leafCountFields_mjsFields :
    ∀ kvs, leafCountFields (mjsFields kvs) = leafCountFields kvs
  | .nil => rfl
  | .cons k v rest => by
    simp [mjsFields, leafCountFields, leafCount_mjs v,
          leafCountFields_mjsFields rest]
end

mutual
theorem jsonSafeB_mjs :
    ∀ o, noOther o = true → jsonSafeB (make_json_serializable o) = true
  | .pyNone, _ => rfl
  | .pyBool _, _ => rfl
  | .pyInt _, _ => rfl
  | .pyFloat _, _ => rfl
  | .pyStr _, _ => rfl
  | .pyBytes _, _ => rfl
  | .pyByteArray _, _ => rfl
  | .pyOther _, h => by simp [noOther] at h
  | .pyList xs, h => by
    simp [noOther] at h
    simp [make_json_serializable, jsonSafeB, jsonSafeList_mjsList xs h]
  | .pyTuple xs, h => by
    simp [noOther] at h
    simp [make_json_serializable, jsonSafeB, jsonSafeList_mjsList xs h]
  | .pyDict kvs, h => by
    simp [noOther] at h
    simp [make_json_serializable, jsonSafeB, jsonSafeFields_mjsFields kvs h]

theorem jsonSafeList_mjsList :
    ∀ xs, noOtherList xs = true → jsonSafeList (mjsList xs) = true
  | .nil, _ => rfl
  | .cons x xs, h => by
    simp [noOtherList] at h
    simp [mjsList, jsonSafeList, jsonSafeB_mjs x h.1, jsonSafeList_mjsList xs h.2]

theorem jsonSafeFields_mjsFields :
    ∀ kvs, noOtherFields kvs = true → jsonSafeFields (mjsFields kvs) = true
  | .nil, _ => rfl
  | .cons k v rest, h => by
    simp [noOtherFields] at h
    simp [mjsFields, jsonSafeFields, jsonSafeB_mjs v h.1,
          jsonSafeFields_mjsFields rest h.2]
end

mutual
theorem serializeJson_isSome :
    ∀ o, jsonSafeB o = true → (serializeJson o).isSome = true
  | .pyNone, _ => rfl
  | .pyBool b, _ => by cases b <;> rfl
  | .pyInt _, _ => rfl
  | .pyFloat _, _ => rfl
  | .pyStr _, _ => rfl
  | .pyBytes _, h => by simp [jsonSafeB] at h
  | .pyByteArray _, h => by simp [jsonSafeB] at h
  | .pyTuple _, h => by simp [jsonSafeB] at h
  | .pyOther _, h => by simp [jsonSafeB] at h
  | .pyList xs, h => by
    simp [jsonSafeB] at h
    obtain ⟨body, hb⟩ := Option.isSome_iff_exists.mp (serializeItems_isSome xs h)
    simp [serializeJson, hb]
  | .pyDict kvs, h => by
    simp [jsonSafeB] at h
    obtain ⟨body, hb⟩ :=
      Option.isSome_iff_exists.mp (serializeEntries_isSome kvs h)
    simp [serializeJson, hb]

theorem serializeItems_isSome :
    ∀ xs, jsonSafeList xs = true → (serializeItems xs).isSome = true
  | .nil, _ => rfl
  | .cons x .nil, h => by
    simp [jsonSafeList] at h
    simpa [serializeItems] using serializeJson_isSome x h
  | .cons x (.cons y ys), h => by
    simp [jsonSafeList] at h
    obtain ⟨d, hd⟩ := Option.isSome_iff_exists.mp (serializeJson_isSome x h.1)
    obtain ⟨rest, hr⟩ := Option.isSome_iff_exists.mp
      (serializeItems_isSome (.cons y ys) (by simp [jsonSafeList, h.2.1, h.2.2]))
    simp [serializeItems, hd, hr]

theorem serializeEntries_isSome :
    ∀ kvs, jsonSafeFields kvs = true → (serializeEntries kvs).isSome = true
  | .nil, _ => rfl
  | .cons k v .nil, h => by
    simp [jsonSafeFields] at h
    obtain ⟨d, hd⟩ := Option.isSome_iff_exists.mp (serializeJson_isSome v h)
    simp [serializeEntries, hd]
  | .cons k v (.cons k2 v2 rest), h => by
    simp [jsonSafeFields] at h
    obtain ⟨d, hd⟩ := Option.isSome_iff_exists.mp (serializeJson_isSome v h.1)
    obtain ⟨rs, hr⟩ := Option.isSome_iff_exists.mp
      (serializeEntries_isSome (.cons k2 v2 rest)
        (by simp [jsonSafeFields, h.2.1, h.2.2]))
    simp [serializeEntries, hd, hr]
end

theorem hexDigit_ne_nl (n : Nat) (h : n < 16) : hexDigit n ≠ '\n' := by
  interval_cases n <;> decide

theorem nl_not_mem_hex4 (n : Nat) : '\n' ∉ hex4 n := by
  have h1 : n / 4096 % 16 < 16 := Nat.mod_lt _ (by norm_num)
  have h2 : n / 256 % 16 < 16 := Nat.mod_lt _ (by norm_num)
  have h3 : n / 16 % 16 < 16 := Nat.mod_lt _ (by norm_num)
  have h4 : n % 16 < 16 := Nat.mod_lt _ (by norm_num)
  intro hmem
  simp [hex4] at hmem
  rcases hmem with h | h | h | h
  · exact hexDigit_ne_nl _ h1 h.symm
  · exact hexDigit_ne_nl _ h2 h.symm
  · exact hexDigit_ne_nl _ h3 h.symm
  · exact hexDigit_ne_nl _ h4 h.symm

theorem hexDigit_mod16_ne_nl (k : Nat) : '\n' ≠ hexDigit (k % 16) :=
  fun h => hexDigit_ne_nl (k % 16) (Nat.mod_lt _ (by norm_num)) h.symm

set_option maxHeartbeats 1000000 in
theorem nl_not_mem_escChar (c : Char) : '\n' ∉ escChar c := by
  unfold escChar
  split_ifs with h1 h2 h3 h4 h5 h6 h7 h8 h9 h10 <;>
    intro hmem <;>
    simp only [hex4, List.mem_cons, List.mem_append, List.mem_singleton,
               List.not_mem_nil, or_false, false_or, or_assoc,
               List.cons_append] at hmem
  · revert hmem; decide
  · revert hmem; decide
  · revert hmem; decide
  · revert hmem; decide
  · revert hmem; decide
  · revert hmem; decide
  · revert hmem; decide
  · rcases hmem with h | h | h | h | h | h
    · exact absurd h (by decide)
    · exact absurd h (by decide)
    · exact hexDigit_mod16_ne_nl _ h
    · exact hexDigit_mod16_ne_nl _ h
    · exact hexDigit_mod16_ne_nl _ h
    · exact hexDigit_mod16_ne_nl _ h
  · exact h3 hmem.symm
  · rcases hmem with h | h | h | h | h | h
    · exact absurd h (by decide)
    · exact absurd h (by decide)
    · exact hexDigit_mod16_ne_nl _ h
    · exact hexDigit_mod16_ne_nl _ h
    · exact hexDigit_mod16_ne_nl _ h
    · exact hexDigit_mod16_ne_nl _ h
  · rcases hmem with h | h | h | h | h | h | h | h | h | h | h | h
    · exact absurd h (by decide)
    · exact absurd h (by decide)
    · exact hexDigit_mod16_ne_nl _ h
    · exact hexDigit_mod16_ne_nl _ h
    · exact hexDigit_mod16_ne_nl _ h
    · exact hexDigit_mod16_ne_nl _ h
    · exact absurd h (by decide)
    · exact absurd h (by decide)
    · exact hexDigit_mod16_ne_nl _ h
    · exact hexDigit_mod16_ne_nl _ h
    · exact hexDigit_mod16_ne_nl _ h
    · exact hexDigit_mod16_ne_nl _ h

theorem nl_not_mem_escChars : ∀ cs, '\n' ∉ escChars cs
  | [] => by simp [escChars]
  | c :: cs => by
    intro hmem
    rcases List.mem_append.mp hmem with h | h
    · exact nl_not_mem_escChar c h
    · exact nl_not_mem_escChars cs h

theorem nl_not_mem_strLit (s : String) : '\n' ∉ strLit s := by
  intro hmem
  rcases List.mem_cons.mp hmem with h | hmem
  · exact absurd h (by decide)
  rcases List.mem_append.mp hmem with h | h
  · exact nl_not_mem_escChars s.data h
  · simp at h

theorem digitChar_ne_nl (n : Nat) : digitChar n ≠ '\n' := by
  have h : n % 10 < 10 := Nat.mod_lt _ (by norm_num)
  unfold digitChar
  set k := n % 10 with hk
  interval_cases k <;> decide

theorem nl_not_mem_natCharsCore :
    ∀ fuel n acc, '\n' ∉ acc → '\n' ∉ natCharsCore fuel n acc
  | 0, n, acc, h => h
  | fuel + 1, n, acc, h => by
    unfold natCharsCore
    split_ifs with hlt
    · intro hmem
      rcases List.mem_cons.mp hmem with h' | h'
      · exact digitChar_ne_nl n h'.symm
      · exact h h'
    · refine nl_not_mem_natCharsCore fuel (n / 10) _ ?_
      intro hmem
      rcases List.mem_cons.mp hmem with h' | h'
      · exact digitChar_ne_nl (n % 10) h'.symm
      · exact h h'

theorem nl_not_mem_natChars (n : Nat) : '\n' ∉ natChars n :=
  nl_not_mem_natCharsCore (n + 1) n [] (by simp)

theorem nl_not_mem_intChars (i : Int) : '\n' ∉ intChars i := by
  unfold intChars
  split_ifs with h
  · intro hmem
    rcases List.mem_cons.mp hmem with h' | h'
    · exact absurd h' (by decide)
    · exact nl_not_mem_natChars _ h'
  · exact nl_not_mem_natChars _

mutual
theorem nl_not_mem_serializeJson :
    ∀ o d, serializeJson o = some d → '\n' ∉ d
  | .pyNone, d, h => by
    simp [serializeJson] at h; subst h; decide
  | .pyBool b, d, h => by
    cases b <;> (simp [serializeJson] at h; subst h; decide)
  | .pyInt i, d, h => by
    simp [serializeJson] at h; subst h; exact nl_not_mem_intChars i
  | .pyFloat fid, d, h => by
    simp [serializeJson] at h; subst h; exact nl_not_mem_natChars fid
  | .pyStr s, d, h => by
    simp [serializeJson] at h; subst h; exact nl_not_mem_strLit s
  | .pyBytes _, d, h => by simp [serializeJson] at h
  | .pyByteArray _, d, h => by simp [serializeJson] at h
  | .pyOther _, d, h => by simp [serializeJson] at h
  | .pyList xs, d, h => by
    simp [serializeJson, Option.map_eq_some'] at h
    obtain ⟨body, hb, rfl⟩ := h
    have hx := nl_not_mem_serializeItems xs body hb
    intro hmem
    rcases List.mem_cons.mp hmem with h' | hmem
    · exact absurd h' (by decide)
    rcases List.mem_append.mp hmem with h' | h'
    · exact hx h'
    · simp at h'
  | .pyTuple xs, d, h => by
    simp [serializeJson, Option.map_eq_some'] at h
    obtain ⟨body, hb, rfl⟩ := h
    have hx := nl_not_mem_serializeItems xs body hb
    intro hmem
    rcases List.mem_cons.mp hmem with h' | hmem
    · exact absurd h' (by decide)
    rcases List.mem_append.mp hmem with h' | h'
    · exact hx h'
    · simp at h'
  | .pyDict kvs, d, h => by
    simp [serializeJson, Option.map_eq_some'] at h
    obtain ⟨body, hb, rfl⟩ := h
    have hx := nl_not_mem_serializeEntries kvs body hb
    intro hmem
    rcases List.mem_cons.mp hmem with h' | hmem
    · exact absurd h' (by decide)
    rcases List.mem_append.mp hmem with h' | h'
    · exact hx h'
    · rcases List.mem_singleton.mp h' with h'
      exact absurd h' (by decide)

theorem nl_not_mem_serializeItems :
    ∀ xs d, serializeItems xs = some d → '\n' ∉ d
  | .nil, d, h => by simp [serializeItems] at h; subst h; simp
  | .cons x .nil, d, h =>
    nl_not_mem_serializeJson x d (by simpa [serializeItems] using h)
  | .cons x (.cons y ys), d, h => by
    simp [serializeItems, Option.bind_eq_some] at h
    obtain ⟨d1, h1, rest, h2, rfl⟩ := h
    have hx := nl_not_mem_serializeJson x d1 h1
    have hr := nl_not_mem_serializeItems (.cons y ys) rest h2
    intro hmem
    rcases List.mem_append.mp hmem with h' | hmem
    · exact hx h'
    rcases List.mem_cons.mp hmem with h' | hmem
    · exact absurd h' (by decide)
    rcases List.mem_cons.mp hmem with h' | h'
    · exact absurd h' (by decide)
    · exact hr h'

theorem nl_not_mem_serializeEntries :
    ∀ kvs d, serializeEntries kvs = some d → '\n' ∉ d
  | .nil, d, h => by simp [serializeEntries] at h; subst h; simp
  | .cons k v .nil, d, h => by
    simp [serializeEntries, Option.bind_eq_some] at h
    obtain ⟨d1, h1, rfl⟩ := h
    have hv := nl_not_mem_serializeJson v d1 h1
    intro hmem
    rcases List.mem_append.mp hmem with h' | hmem
    · exact nl_not_mem_strLit k h'
    rcases List.mem_cons.mp hmem with h' | hmem
    · exact absurd h' (by decide)
    rcases List.mem_cons.mp hmem with h' | h'
    · exact absurd h' (by decide)
    · exact hv h'
  | .cons k v (.cons k2 v2 rest), d, h => by
    simp [serializeEntries, Option.bind_eq_some] at h
    obtain ⟨d1, h1, rs, h2, rfl⟩ := h
    have hv := nl_not_mem_serializeJson v d1 h1
    have hr := nl_not_mem_serializeEntries (.cons k2 v2 rest) rs h2
    intro hmem
    rcases List.mem_append.mp hmem with h' | hmem
    · exact nl_not_mem_strLit k h'
    rcases List.mem_cons.mp hmem with h' | hmem
    · exact absurd h' (by decide)
    rcases List.mem_cons.mp hmem with h' | hmem
    · exact absurd h' (by decide)
    rcases List.mem_append.mp hmem with h' | hmem
    · exact hv h'
    rcases List.mem_cons.mp hmem with h' | hmem
    · exact absurd h' (by decide)
    rcases List.mem_cons.mp hmem with h' | h'
    · exact absurd h' (by decide)
    · exact hr h'
end

theorem serialize_json_entry_isSome (ts : String) (m : Msg) (dir : String)
    (h : noOther m.payload = true) :
    (serializeJson (json_entry ts m dir)).isSome = true := by
  obtain ⟨pd, hpd⟩ := Option.isSome_iff_exists.mp
    (serializeJson_isSome _ (jsonSafeB_mjs _ h))
  simp [json_entry, serializeJson, serializeEntries, hpd]

theorem nl_not_mem_jdoc (p : String × Msg) (h : noOther p.2.payload = true) :
    '\n' ∉ jdoc p := by
  obtain ⟨d, hd⟩ := Option.isSome_iff_exists.mp
    (serialize_json_entry_isSome p.1 p.2 "RX" h)
  simpa [jdoc, hd] using nl_not_mem_serializeJson _ d hd

theorem json_logger_loop_all_ok :
    ∀ (frames : List (String × Msg)) (fl : List Char),
    (∀ p ∈ frames, noOther p.2.payload = true) →
    json_logger_loop ⟨true, some ⟨fl, []⟩⟩
        (frames.map fun p => .msg p.1 p.2 .ok) =
      (⟨true, some ⟨fl ++ (frames.map fun p => jdoc p ++ ['\n']).flatten, []⟩⟩, [])
  | [], fl, _ => by simp [json_logger_loop]
  | p :: rest, fl, h => by
    have hp := h p (List.mem_cons_self p rest)
    obtain ⟨d, hd⟩ := Option.isSome_iff_exists.mp
      (serialize_json_entry_isSome p.1 p.2 "RX" hp)
    have hrest := json_logger_loop_all_ok rest (fl ++ (d ++ ['\n']))
      (fun q hq => h q (List.mem_cons_of_mem p hq))
    have hjd : jdoc p = d := by simp [jdoc, hd]
    simp [json_logger_loop, log_mavlink_message, hd, fwrite, fflush, hrest, hjd,
          List.append_assoc]

theorem count_nl_join :
    ∀ docs : List (List Char), (∀ d ∈ docs, '\n' ∉ d) →
    ((docs.map fun d => d ++ ['\n']).flatten).count '\n' = docs.length
  | [], _ => by simp
  | d :: ds, h => by
    have hd := h d (List.mem_cons_self d ds)
    have hds := count_nl_join ds (fun x hx => h x (List.mem_cons_of_mem d hx))
    simp [List.count_append, List.count_cons, hds, List.count_eq_zero.mpr hd]

/-! Concrete sample data used by witnesses and counterexamples. -/

/-- sampleMsg is a small concrete decoded message (a HEARTBEAT). -/
def sampleMsg : Msg :=
  { msg_type := "HEARTBEAT", msg_id := 0, src_system := 1, src_component := 1,
    seq := 1, payload := .pyDict (.cons "type" (.pyInt 2) .nil) }

/-- sampleMsg2 is a second concrete decoded message (an ATTITUDE). -/
def sampleMsg2 : Msg :=
  { msg_type := "ATTITUDE", msg_id := 30, src_system := 1, src_component := 1,
    seq := 2, payload := .pyDict (.cons "roll" (.pyFloat 3) .nil) }

/-- sampleState is a logger state with an open, empty log file. -/
def sampleState : LoggerState := ⟨true, some ⟨[], []⟩⟩

/-- badDataMsg models the `MAVLink_bad_data` object that mavutil's
default robust parsing makes `recv_match` return for a frame that fails
to decode (bad checksum, truncated frame, unknown sync byte): a message
whose `get_type()` is `"BAD_DATA"`, with id -1 and zeroed header fields,
and whose `to_dict()` maps `mavpackettype` to `"BAD_DATA"`, `data` to the
undecodable raw bytes and `reason` to a diagnostic string.  Decode
failures reach the logger loop as such messages, not as exceptions. -/
def badDataMsg (data : List Nat) (reason : String) : Msg :=
  { msg_type := "BAD_DATA", msg_id := -1, src_system := 0, src_component := 0,
    seq := 0,
    payload := .pyDict (.cons "mavpackettype" (.pyStr "BAD_DATA")
      (.cons "data" (.pyBytes data)
        (.cons "reason" (.pyStr reason) .nil))) }

/-- passthroughLeaf holds for a Python value that matches none of the
isinstance checks of `make_json_serializable` (bytearray, bytes, dict,
list, tuple): such values reach the final `else` branch and are returned
as they are. -/
def passthroughLeaf : PyObj → Bool
  | .pyBytes _ => false
  | .pyByteArray _ => false
  | .pyDict _ => false
  | .pyList _ => false
  | .pyTuple _ => false
  | _ => true

/-! Claims. -/

/-- C1: for every DecodedMessage payload — a tree of the Python types a
decoded message can contain, with no foreign objects — the payload of the
LogRecord produced by normalization has only JSON-safe values (each one
of null, bool, number, string, array, object), and every bytes/bytearray
value at any nesting depth is decoded as UTF-8 with invalid sequences
replaced, never left as raw bytes. -/
theorem C1_payload_json_safe (o : PyObj) (h : noOther o = true) :
    jsonSafeB (make_json_serializable o) = true ∧
    (∀ bs, make_json_serializable (.pyBytes bs) = .pyStr (utf8DecodeReplace bs)) ∧
    (∀ bs, make_json_serializable (.pyByteArray bs) =
      .pyStr (utf8DecodeReplace bs)) :=
  ⟨jsonSafeB_mjs o h, fun _ => rfl, fun _ => rfl⟩

/-- C1 witness: a payload with bytes nested at two depths satisfies the
hypothesis and the conclusion. -/
theorem C1_payload_json_safe_witness :
    noOther (.pyDict (.cons "text" (.pyBytes [72, 105, 255])
      (.cons "arr" (.pyList (.cons (.pyByteArray [195, 169]) .nil)) .nil))) =
        true ∧
    (jsonSafeB (make_json_serializable
      (.pyDict (.cons "text" (.pyBytes [72, 105, 255])
        (.cons "arr" (.pyList (.cons (.pyByteArray [195, 169]) .nil)) .nil)))) =
          true ∧
     (∀ bs, make_json_serializable (.pyBytes bs) = .pyStr (utf8DecodeReplace bs)) ∧
     (∀ bs, make_json_serializable (.pyByteArray bs) =
       .pyStr (utf8DecodeReplace bs))) :=
  ⟨by decide, C1_payload_json_safe _ (by decide)⟩

/-- C2: for any payload tree of nested mappings and sequences
(lists/tuples) of any depth without foreign objects, normalization
produces a JSON-safe tree of the same shape (sequences to sequences,
mappings to mappings with the same keys in the same order, elements in
the same order) and the same number of leaves; only leaf representations
change. -/
theorem C2_lossless_structure (o : PyObj) (h : noOther o = true) :
    shape (make_json_serializable o) = shape o ∧
    leafCount (make_json_serializable o) = leafCount o ∧
    jsonSafeB (make_json_serializable o) = true :=
  ⟨shape_mjs o, leafCount_mjs o, jsonSafeB_mjs o h⟩

/-- C2 witness: a payload mixing a tuple, a list, a nested dict and bytes
satisfies the hypothesis and the conclusion. -/
theorem C2_lossless_structure_witness :
    noOther (.pyDict (.cons "q" (.pyTuple (.cons (.pyInt 1)
      (.cons (.pyBytes [226, 130]) .nil)))
        (.cons "m" (.pyDict (.cons "k" (.pyList .nil) .nil)) .nil))) = true ∧
    (shape (make_json_serializable (.pyDict (.cons "q" (.pyTuple (.cons (.pyInt 1)
        (.cons (.pyBytes [226, 130]) .nil)))
          (.cons "m" (.pyDict (.cons "k" (.pyList .nil) .nil)) .nil)))) =
      shape (.pyDict (.cons "q" (.pyTuple (.cons (.pyInt 1)
        (.cons (.pyBytes [226, 130]) .nil)))
          (.cons "m" (.pyDict (.cons "k" (.pyList .nil) .nil)) .nil))) ∧
     leafCount (make_json_serializable (.pyDict (.cons "q" (.pyTuple (.cons (.pyInt 1)
        (.cons (.pyBytes [226, 130]) .nil)))
          (.cons "m" (.pyDict (.cons "k" (.pyList .nil) .nil)) .nil)))) =
      leafCount (.pyDict (.cons "q" (.pyTuple (.cons (.pyInt 1)
        (.cons (.pyBytes [226, 130]) .nil)))
          (.cons "m" (.pyDict (.cons "k" (.pyList .nil) .nil)) .nil))) ∧
     jsonSafeB (make_json_serializable (.pyDict (.cons "q" (.pyTuple (.cons (.pyInt 1)
        (.cons (.pyBytes [226, 130]) .nil)))
          (.cons "m" (.pyDict (.cons "k" (.pyList .nil) .nil)) .nil)))) = true) :=
  ⟨by decide, C2_lossless_structure _ (by decide)⟩

/-- C3: normalization is deterministic: from equal message, direction and
timestamp inputs, the JSON entry built by `log_mavlink_message` — and
hence its byte-for-byte serialization — is identical. -/
theorem C3_deterministic_normalize (m1 m2 : Msg) (d1 d2 t1 t2 : String)
    (hm : m1 = m2) (hd : d1 = d2) (ht : t1 = t2) :
    json_entry t1 m1 d1 = json_entry t2 m2 d2 ∧
    serializeJson (json_entry t1 m1 d1) = serializeJson (json_entry t2 m2 d2) := by
  subst hm; subst hd; subst ht; exact ⟨rfl, rfl⟩

/-- C3 witness: the determinism theorem applied to a concrete message,
direction and timestamp. -/
theorem C3_deterministic_normalize_witness :
    sampleMsg = sampleMsg ∧ "RX" = "RX" ∧ "T0" = "T0" ∧
    (json_entry "T0" sampleMsg "RX" = json_entry "T0" sampleMsg "RX" ∧
     serializeJson (json_entry "T0" sampleMsg "RX") =
       serializeJson (json_entry "T0" sampleMsg "RX")) :=
  ⟨rfl, rfl, rfl, C3_deterministic_normalize sampleMsg sampleMsg "RX" "RX" "T0" "T0"
    rfl rfl rfl⟩

/-- C4 counterexample: mavutil's default robust parsing returns a frame
that fails to decode as a `BAD_DATA` message from `recv_match`, so the
code does not treat it as an error at all: at this concrete input the
loop reports nothing on the error channel (no events), and, far from
discarding the frame, it appends a log line for it (the file state
changes) — refuting the claim that the capture loop reports the error
for a frame that fails to decode. -/
theorem C4_bad_data_counterexample :
    (json_logger_loop sampleState
      [.msg "T0" (badDataMsg [253, 99] "Bad prefix") .ok]).2 = [] ∧
    (json_logger_loop sampleState
      [.msg "T0" (badDataMsg [253, 99] "Bad prefix") .ok]).1 ≠ sampleState := by
  constructor
  · decide
  · decide

/-- C4 (amended): a frame that fails to decode reaches the capture loop
as a `BAD_DATA` message, which the loop does not report as an error but
logs as an ordinary record — one JSON line, like any valid frame — and
then proceeds to the next receive call: every remaining error-free frame
is logged in order, no event is ever emitted, and the session is never
terminated by the malformed frame. -/
theorem C4_bad_data_logged_continues (ts : String) (data : List Nat)
    (reason : String) (frames : List (String × Msg))
    (h : ∀ p ∈ frames, noOther p.2.payload = true) :
    json_logger_loop ⟨true, some ⟨[], []⟩⟩
        (((ts, badDataMsg data reason) :: frames).map fun p => .msg p.1 p.2 .ok) =
      (⟨true, some ⟨(((ts, badDataMsg data reason) :: frames).map
          fun p => jdoc p ++ ['\n']).flatten, []⟩⟩, []) ∧
    (badDataMsg data reason).msg_type = "BAD_DATA" ∧
    noOther (badDataMsg data reason).payload = true := by
  refine ⟨?_, rfl, rfl⟩
  refine json_logger_loop_all_ok ((ts, badDataMsg data reason) :: frames) [] ?_
  intro p hp
  rcases List.mem_cons.mp hp with hp | hp
  · subst hp; rfl
  · exact h p hp

/-- C4 witness: the amended theorem at a concrete malformed frame
followed by a valid frame. -/
theorem C4_bad_data_logged_continues_witness :
    (∀ p ∈ [("T1", sampleMsg)], noOther p.2.payload = true) ∧
    (json_logger_loop ⟨true, some ⟨[], []⟩⟩
        ((("T0", badDataMsg [253, 99] "Bad prefix") :: [("T1", sampleMsg)]).map
          fun p => .msg p.1 p.2 .ok) =
      (⟨true, some ⟨((("T0", badDataMsg [253, 99] "Bad prefix") ::
          [("T1", sampleMsg)]).map fun p => jdoc p ++ ['\n']).flatten, []⟩⟩, []) ∧
     (badDataMsg [253, 99] "Bad prefix").msg_type = "BAD_DATA" ∧
     noOther (badDataMsg [253, 99] "Bad prefix").payload = true) :=
  ⟨by decide, C4_bad_data_logged_continues "T0" [253, 99] "Bad prefix"
    [("T1", sampleMsg)] (by decide)⟩

/-- C5: when the write or flush of one record raises `IOError`, the error
is caught inside `log_mavlink_message` and reported, and the capture loop
continues with the remaining messages exactly as it would have without
the failed frame; one failed write never aborts the session. -/
theorem C5_write_error_continues (st : LoggerState) (f : FileState) (ts : String)
    (m : Msg) (rest : List RecvOutcome)
    (hf : st.json_log_file = some f) (he : st.json_logging_enabled = true) :
    json_logger_loop st (.msg ts m .ioerr :: rest) =
      ((json_logger_loop st rest).1,
        .jsonLoggingError :: (json_logger_loop st rest).2) := by
  have hlog : log_mavlink_message st ts m "RX" .ioerr = (st, [.jsonLoggingError]) := by
    cases hsj : serializeJson (json_entry ts m "RX") with
    | none => simp [log_mavlink_message, hf, he, hsj]
    | some d => simp [log_mavlink_message, hf, he, hsj]
  simp [json_logger_loop, he, hlog]

/-- C5 witness: a failed write on the first message, followed by a
successfully logged second message. -/
theorem C5_write_error_continues_witness :
    sampleState.json_log_file = some ⟨[], []⟩ ∧
    sampleState.json_logging_enabled = true ∧
    json_logger_loop sampleState
        [.msg "T0" sampleMsg .ioerr, .msg "T1" sampleMsg2 .ok] =
      ((json_logger_loop sampleState [.msg "T1" sampleMsg2 .ok]).1,
        .jsonLoggingError ::
          (json_logger_loop sampleState [.msg "T1" sampleMsg2 .ok]).2) :=
  ⟨rfl, rfl, C5_write_error_continues sampleState ⟨[], []⟩ "T0" sampleMsg
    [.msg "T1" sampleMsg2 .ok] rfl rfl⟩

/-- C6: starting from a freshly opened (empty) log file, a trace of N
frames received without decode or write errors leaves the file holding
exactly the N serialized JSON documents in receipt order, each terminated
by a newline, with no newline inside any document — so the file holds
exactly N lines (its newline count is N) — and reports no errors. -/
theorem C6_n_frames_n_lines (frames : List (String × Msg))
    (h : ∀ p ∈ frames, noOther p.2.payload = true) :
    json_logger_loop ⟨true, some ⟨[], []⟩⟩
        (frames.map fun p => .msg p.1 p.2 .ok) =
      (⟨true, some ⟨(frames.map fun p => jdoc p ++ ['\n']).flatten, []⟩⟩, []) ∧
    (∀ p ∈ frames, '\n' ∉ jdoc p) ∧
    ((frames.map fun p => jdoc p ++ ['\n']).flatten).count '\n' = frames.length := by
  refine ⟨?_, ?_, ?_⟩
  · simpa using json_logger_loop_all_ok frames [] h
  · exact fun p hp => nl_not_mem_jdoc p (h p hp)
  · have hmem : ∀ d ∈ frames.map jdoc, '\n' ∉ d := by
      intro d hd
      obtain ⟨p, hp, hpd⟩ := List.mem_map.mp hd
      exact hpd ▸ nl_not_mem_jdoc p (h p hp)
    have hc := count_nl_join (frames.map jdoc) hmem
    simpa [List.map_map, Function.comp] using hc

/-- C6 witness: two frames, no errors, two lines in order. -/
theorem C6_n_frames_n_lines_witness :
    (∀ p ∈ [("T0", sampleMsg), ("T1", sampleMsg2)], noOther p.2.payload = true) ∧
    (json_logger_loop ⟨true, some ⟨[], []⟩⟩
        ([("T0", sampleMsg), ("T1", sampleMsg2)].map fun p => .msg p.1 p.2 .ok) =
      (⟨true, some ⟨([("T0", sampleMsg), ("T1", sampleMsg2)].map
          fun p => jdoc p ++ ['\n']).flatten, []⟩⟩, []) ∧
     (∀ p ∈ [("T0", sampleMsg), ("T1", sampleMsg2)], '\n' ∉ jdoc p) ∧
     (([("T0", sampleMsg), ("T1", sampleMsg2)].map
         fun p => jdoc p ++ ['\n']).flatten).count '\n' =
       [("T0", sampleMsg), ("T1", sampleMsg2)].length) :=
  ⟨by decide, C6_n_frames_n_lines [("T0", sampleMsg), ("T1", sampleMsg2)]
    (by decide)⟩

/-- C7: a successful append writes exactly the serialized JSON document
followed by one newline, the document itself contains no newline, and the
buffer is flushed before the call returns (the component leaves nothing
pending between appends). -/
theorem C7_append_one_line_flushed (st : LoggerState) (f : FileState)
    (ts : String) (m : Msg) (direction : String)
    (hf : st.json_log_file = some f) (he : st.json_logging_enabled = true)
    (hs : (serializeJson (json_entry ts m direction)).isSome = true) :
    log_mavlink_message st ts m direction .ok =
      ({ st with
         json_log_file := some ⟨f.flushed ++ f.pending ++
           ((serializeJson (json_entry ts m direction)).getD [] ++ ['\n']), []⟩ },
       []) ∧
    '\n' ∉ (serializeJson (json_entry ts m direction)).getD [] := by
  obtain ⟨d, hd⟩ := Option.isSome_iff_exists.mp hs
  constructor
  · simp [log_mavlink_message, hf, he, hd, fwrite, fflush, List.append_assoc]
  · simpa [hd] using nl_not_mem_serializeJson _ d hd

/-- C7 witness: the append theorem applied to the sample message on an
open empty file. -/
theorem C7_append_one_line_flushed_witness :
    sampleState.json_log_file = some ⟨[], []⟩ ∧
    sampleState.json_logging_enabled = true ∧
    (serializeJson (json_entry "T0" sampleMsg "RX")).isSome = true ∧
    (log_mavlink_message sampleState "T0" sampleMsg "RX" .ok =
      ({ sampleState with
         json_log_file := some ⟨([] : List Char) ++ ([] : List Char) ++
           ((serializeJson (json_entry "T0" sampleMsg "RX")).getD [] ++ ['\n']),
           []⟩ },
       []) ∧
     '\n' ∉ (serializeJson (json_entry "T0" sampleMsg "RX")).getD []) :=
  ⟨rfl, rfl, by decide, C7_append_one_line_flushed sampleState ⟨[], []⟩ "T0"
    sampleMsg "RX" rfl rfl (by decide)⟩

/-- C8 counterexample: with the log file opening successfully and the
inbound connection failing (the spec's `ConnectError`),
`start_json_logger` still returns `True` and the `.jsonl` log file has
already been created on disk — refuting the claim that `start()` fails
immediately and that no log file is created. -/
theorem C8_connect_error_counterexample :
    (start_json_logger true false).ret = true ∧
    (start_json_logger true false).fileCreated = true := by
  constructor
  · rfl
  · rfl

/-- C8 (amended): `start_json_logger` fails immediately — returning
`False`, with no file created and no events — only when opening the log
file itself fails; when the file opens but the inbound endpoint cannot be
connected, the log file has already been created, the call returns
`True`, and the connection failure is only reported asynchronously from
the logger thread. -/
theorem C8_connect_error_amended :
    (∀ c, start_json_logger false c =
      { ret := false, fileCreated := false, events := [] }) ∧
    start_json_logger true false =
      { ret := true, fileCreated := true, events := [Event.connectionFailed] } :=
  ⟨fun _ => rfl, rfl⟩

/-- C9 counterexample: from a started controller, a second `stop()` is
not a no-op: the `mavproxy_process` attribute is never cleared, so the
process-shutdown block runs again and prints `"✓ MAVProxy stopped"` a
second time — an observable effect beyond the first call. -/
theorem C9_stop_second_call_counterexample :
    (stop (stop ⟨true, some true, some true⟩).1).2 = [Event.mavproxyStopped] ∧
    (stop (stop ⟨true, some true, some true⟩).1).2 ≠ [] := by
  constructor
  · rfl
  · decide

/-- C9 (amended): a second `stop()` changes no state and never re-closes
the already-closed log file (the JSON-logging shutdown is a true no-op,
and no further SIGTERM is delivered because the child has exited), but it
re-runs the process-shutdown block whenever a process handle was ever
set, reporting `"✓ MAVProxy stopped"` again. -/
theorem C9_stop_idempotent_amended (s : CtrlState) :
    (stop (stop s).1).1 = (stop s).1 ∧
    Event.jsonLoggingStopped ∉ (stop (stop s).1).2 ∧
    Event.sigterm ∉ (stop (stop s).1).2 ∧
    (stop (stop s).1).2 =
      (if ((stop s).1).mavproxy_process.isSome then [Event.mavproxyStopped]
       else []) := by
  rcases s with ⟨e, f, p⟩
  cases e <;> rcases f with _ | fb <;> rcases p with _ | pb <;>
    simp [stop]

/-- C10: a value that is none of bytes, bytearray, dict, list, tuple
passes through the normalizer unchanged; and when such a value makes the
record non-JSON-serializable, `json.dumps` raises before `write` is ever
called, so the record is dropped atomically — the log file is unchanged,
no partial line appears, and only the error is reported. -/
theorem C10_passthrough_atomic_drop (o : PyObj) (ho : passthroughLeaf o = true)
    (st : LoggerState) (f : FileState) (ts : String) (m : Msg)
    (direction : String) (wr : WriteOutcome)
    (hf : st.json_log_file = some f) (he : st.json_logging_enabled = true)
    (hs : serializeJson (json_entry ts m direction) = none) :
    make_json_serializable o = o ∧
    log_mavlink_message st ts m direction wr = (st, [Event.jsonLoggingError]) := by
  constructor
  · cases o <;> simp_all [passthroughLeaf, make_json_serializable]
  · cases wr <;> simp [log_mavlink_message, hf, he, hs]

/-- C10 witness: a foreign object as payload leaf makes serialization
fail; the file is untouched and the value itself passed through the
normalizer unchanged. -/
theorem C10_passthrough_atomic_drop_witness :
    passthroughLeaf (.pyOther 0) = true ∧
    sampleState.json_log_file = some ⟨[], []⟩ ∧
    sampleState.json_logging_enabled = true ∧
    serializeJson (json_entry "T0"
      { sampleMsg with payload := .pyOther 0 } "RX") = none ∧
    (make_json_serializable (.pyOther 0) = .pyOther 0 ∧
     log_mavlink_message sampleState "T0"
         { sampleMsg with payload := .pyOther 0 } "RX" .ok =
       (sampleState, [Event.jsonLoggingError])) :=
  ⟨rfl, rfl, rfl, by decide,
    C10_passthrough_atomic_drop (.pyOther 0) rfl sampleState ⟨[], []⟩ "T0"
      { sampleMsg with payload := .pyOther 0 } "RX" .ok rfl rfl (by decide)⟩

end MavlinkProxy
